import Mathlib

/-!
Verification development for the PrecipAPI multi-source aggregation core.

The Python source is shallowly embedded:
* Python `float` values that matter to the verified properties all originate
  from decimal strings (RDB coordinate columns, measurement values) or from
  the geodesic-distance routine, which is kept abstract.  They are modelled
  exactly as decimal numbers `mant * 10 ^ (-exp)` (`Dec` below), with
  comparison operators defined by cross multiplication so that every
  operation is kernel-computable.
* Python `str` operations (`split`, `strip`, `lower`, comparison) are
  modelled over `List Char` / `String.data`.
* Fallible code returns `Except`; a raised exception is the `.error` case.
-/

namespace PrecipAPI

/-! ## Exact decimal numbers (model of the Python floats flowing through the core) -/

/-- An exact decimal number `mant * 10 ^ (-exp)`.  This represents the
Python floats handled by the aggregation core (all of which are parsed from
decimal strings or produced by the abstracted geodesic routine). -/
structure Dec where
  mant : Int
  exp : Nat
deriving DecidableEq, Repr

namespace Dec

/-- Numeric comparison `a <= b`, by cross multiplication (denominators
`10 ^ exp` are positive). -/
def le (a b : Dec) : Bool := a.mant * 10 ^ b.exp ≤ b.mant * 10 ^ a.exp

/-- Numeric comparison `a < b`. -/
def lt (a b : Dec) : Bool := a.mant * 10 ^ b.exp < b.mant * 10 ^ a.exp

/-- Numeric equality `a == b` (Python float equality). -/
def eqv (a b : Dec) : Bool := a.mant * 10 ^ b.exp = b.mant * 10 ^ a.exp

/-- Python truthiness of a float: `0.0` (and `-0.0`) is falsy. -/
def isZero (a : Dec) : Bool := a.mant = 0

/-- Unary negation. -/
def neg (a : Dec) : Dec := ⟨-a.mant, a.exp⟩

end Dec

/-- Round-half-to-even of the fraction `n / d` for `0 < d`
(the rounding mode of Python's built-in `round`). -/
def roundHalfEven (n d : Int) : Int :=
  let q := Int.fdiv n d
  let r := n - q * d
  if 2 * r < d then q
  else if d < 2 * r then q + 1
  else if q % 2 = 0 then q else q + 1

/-- Python `round(x, 4)`, returned as the integer number of `10 ^ (-4)`
units; two floats have equal `round(_, 4)` values iff these integers agree. -/
def Dec.round4 (a : Dec) : Int :=
  if a.exp ≤ 4 then a.mant * 10 ^ (4 - a.exp)
  else roundHalfEven a.mant (10 ^ (a.exp - 4))

/-! ## Python string operations over `List Char` -/

/-- The whitespace recognised by Python's `str.strip()`. -/
def isPySpace (c : Char) : Bool :=
  c == ' ' || c == '\t' || c == '\n' || c == '\x0d' || c == '\x0b' || c == '\x0c'

/-- Model of `str.strip()` on the underlying character list. -/
def trimChars (cs : List Char) : List Char :=
  ((cs.dropWhile isPySpace).reverse.dropWhile isPySpace).reverse

/-- Model of `str.strip()`. -/
def pyStrip (s : String) : String := ⟨trimChars s.data⟩

/-- Model of `str.lower()` (for the ASCII range). -/
def pyLower (s : String) : String := ⟨s.data.map Char.toLower⟩

/-- Model of `str.split(sep)` for a one-character separator: split on every
occurrence, keeping empty fragments (Python semantics for an explicit
separator). -/
def splitOnChar (sep : Char) : List Char → List (List Char)
  | [] => [[]]
  | c :: rest =>
    if c = sep then [] :: splitOnChar sep rest
    else
      match splitOnChar sep rest with
      | [] => [[c]]
      | g :: gs => (c :: g) :: gs

/-- Model of `str.split(sep)` returning `String` fragments. -/
def pySplit (sep : Char) (s : String) : List String :=
  (splitOnChar sep s.data).map String.mk

/-- Model of `str.split(sep, 1)`: split on the first occurrence of `sep` only;
`none` when `sep` does not occur (where Python would return a 1-element
list, making 2-element unpacking raise `ValueError`). -/
def splitOnFirst (sep : Char) : List Char → Option (List Char × List Char)
  | [] => none
  | c :: rest =>
    if c = sep then some ([], rest)
    else
      match splitOnFirst sep rest with
      | some (a, b) => some (c :: a, b)
      | none => none

/-- Model of `str.startswith(c)` for a one-character prefix. -/
def pyStartsWith (s : String) (c : Char) : Bool :=
  match s.data with
  | c' :: _ => c' == c
  | [] => false

/-! ## Normalized data model (`app/models/models.py`) -/

/-- The `ParameterType` enum. -/
inductive ParameterType
  | precipitation
  | streamflow
  | temperature_water
  | temperature_air
  | gage_height
  | humidity
  | wind_speed
  | pressure
deriving DecidableEq, Repr, BEq

/-- The `DataSource` enum. -/
inductive DataSource
  | usgs
  | noaa
  | nwis
  | mesonet
deriving DecidableEq, Repr, BEq

/-- The `value` of a `DataSource` member. -/
def DataSource.value : DataSource → String
  | .usgs => "usgs"
  | .noaa => "noaa"
  | .nwis => "nwis"
  | .mesonet => "mesonet"

/-- Model of `DataSource(source_name)` construction: `some` member on a valid value,
`none` where Python raises `ValueError`. -/
def DataSource.fromValue (s : String) : Option DataSource :=
  if s = "usgs" then some .usgs
  else if s = "noaa" then some .noaa
  else if s = "nwis" then some .nwis
  else if s = "mesonet" then some .mesonet
  else none

/-- Standardized `Station` model. -/
structure Station where
  station_id : String
  source : DataSource
  vendor_id : String
  name : String
  site_type : String
  latitude : Dec
  longitude : Dec
  elevation_ft : Option Dec := none
  state : Option String := none
  county : Option String := none
  available_parameters : List ParameterType := []
  distance_miles : Option Dec := none
  metadata : List (String × Option String) := []
deriving DecidableEq, Repr

/-- Standardized `Measurement` model (shared shape of
`PrecipitationMeasurement` / `StreamflowMeasurement`; the timestamp is kept
opaque as a string). -/
structure Measurement where
  station_id : String
  source : DataSource
  vendor_id : String
  station_name : String
  parameter_type : ParameterType
  latitude : Dec
  longitude : Dec
  timestamp : String
  value : Option Dec
  unit : String
  quality_flags : List String := []
  metadata : List (String × List String) := []
deriving DecidableEq, Repr

/-- The `StationSearchRequest` model (`parameter_types` and `site_types` only
shape the upstream queries and are omitted; `max_results` defaults to 100). -/
structure StationSearchRequest where
  latitude : Option Dec := none
  longitude : Option Dec := none
  address : Option String := none
  radius_miles : Dec := ⟨25, 0⟩
  sources : Option (List DataSource) := none
  max_results : Nat := 100
deriving Repr

/-- The `StationSearchResponse` model. -/
structure StationSearchResponse where
  stations : List Station
  total_count : Nat
  search_location : Option Dec × Option Dec × Option String
  radius_miles : Dec
  errors_by_source : List (String × String)
deriving DecidableEq, Repr

/-! ## Exception taxonomy (`app/models/exceptions.py` plus builtin `ValueError`) -/

/-- The exceptions observable at the aggregation core's boundary.
`valueError` is Python's builtin `ValueError` (raised by
`_decode_station_id` and by the `find_stations` input guard); the rest are
the `PrecipAPIError` subclasses the embedded paths raise. -/
inductive PrecipError
  | stationNotFound (msg : String)
  | dataSourceError (msg : String)
  | validationError (msg : String)
  | valueError (msg : String)
deriving DecidableEq, Repr

/-! ## Connector base-class defaults (`app/base.py`) -/

/-- Model of the `DataSourceConnector.find_stations_by_address` default body: raises
`DataSourceError(f"{self.name()} does not support address-based search")`. -/
def find_stations_by_address_default (name : String) :
    Except PrecipError (List Station) :=
  .error (.dataSourceError (name ++ " does not support address-based search"))

/-- Model of the `DataSourceConnector.get_precipitation_data` default body. -/
def get_precipitation_data_default (name : String) :
    Except PrecipError (List Measurement) :=
  .error (.dataSourceError (name ++ " does not support precipitation data retrieval"))

/-- Model of the `DataSourceConnector.get_streamflow_data` default body. -/
def get_streamflow_data_default (name : String) :
    Except PrecipError (List Measurement) :=
  .error (.dataSourceError (name ++ " does not support streamflow data retrieval"))

/-! ## Aggregator (`app/__init__.py`, class `PrecipAPI`) -/

/-- Model of `PrecipAPI._decode_station_id`: split on the first `:`; no colon makes
the 2-element unpacking raise `ValueError`, re-raised with this message. -/
def decode_station_id (station_id : String) : Except PrecipError (String × String) :=
  match splitOnFirst ':' station_id.data with
  | some (a, b) => .ok (String.mk a, String.mk b)
  | none =>
      .error (.valueError ("Invalid station ID format: " ++ station_id ++
        ". Expected 'source:id'"))

/-- The `station_id` encoding used by every connector:
`f"{source}:{vendor_id}"` (`USGSConnector._convert_usgs_station_to_station`
uses the literal prefix `"usgs:"`). -/
def encodeStationId (source vendor_id : String) : String :=
  source ++ ":" ++ vendor_id

/-- The dedup key of `PrecipAPI._deduplicate_stations`:
`(round(lat, 4), round(lon, 4), name.lower().strip())`. -/
def stationKey (s : Station) : Int × Int × String :=
  (s.latitude.round4, s.longitude.round4, pyStrip (pyLower s.name))

/-- The `seen`-set loop of `_deduplicate_stations`: keep the first
occurrence of each key, drop later duplicates. -/
def dedupLoop : List (Int × Int × String) → List Station → List Station
  | _, [] => []
  | seen, s :: rest =>
    if stationKey s ∈ seen then dedupLoop seen rest
    else s :: dedupLoop (stationKey s :: seen) rest

/-- The sort key's first component, `s.distance_miles or float("inf")`:
`none` stands for infinity.  Note the Python `or`: a distance of exactly
`0.0` is falsy and is therefore also replaced by infinity. -/
def sortDist (s : Station) : Option Dec :=
  match s.distance_miles with
  | some d => if d.isZero then none else some d
  | none => none

/-- Strict `<` on sort-key distances, `none` being `float("inf")`. -/
def odistLT : Option Dec → Option Dec → Bool
  | some a, some b => Dec.lt a b
  | some _, none => true
  | none, _ => false

/-- Equality on sort-key distances (Python float tuple comparison). -/
def odistEqv : Option Dec → Option Dec → Bool
  | some a, some b => Dec.eqv a b
  | none, none => true
  | _, _ => false

/-- The total preorder realised by `sorted(unique, key=lambda s:
(s.distance_miles or float("inf"), s.name))`: lexicographic on
(distance-or-infinity, name). -/
def stationLE (s t : Station) : Prop :=
  odistLT (sortDist s) (sortDist t) = true ∨
    (odistEqv (sortDist s) (sortDist t) = true ∧ s.name.data ≤ t.name.data)

instance : DecidableRel stationLE := fun s t =>
  inferInstanceAs (Decidable (odistLT (sortDist s) (sortDist t) = true ∨
    (odistEqv (sortDist s) (sortDist t) = true ∧ s.name.data ≤ t.name.data)))

/-- Model of `PrecipAPI._deduplicate_stations`: dedup by key (first occurrence
wins), then the stable sort by `(distance or inf, name)`.
`List.insertionSort` is a stable sort, hence produces the same list as
Python's stable `sorted` for this total preorder. -/
def deduplicate_stations (stations : List Station) : List Station :=
  List.insertionSort stationLE (dedupLoop [] stations)

/-- Python truthiness of an `Optional[float]` (`None` and `0.0` are falsy). -/
def truthyDec : Option Dec → Bool
  | none => false
  | some d => !d.isZero

/-- Python truthiness of an `Optional[str]` (`None` and `""` are falsy). -/
def truthyStr : Option String → Bool
  | none => false
  | some s => s ≠ ""

/-- The inner `search_source` coroutine of `PrecipAPI.find_stations`: a
connector call either returns a station list or raises; `except Exception`
turns a raised exception into `(source, [], str(e))`.  A connector's
behaviour on the request is its `Except`-valued outcome. -/
def searchSource (source : DataSource) (outcome : Except String (List Station)) :
    DataSource × List Station × Option String :=
  match outcome with
  | .ok stations => (source, stations, none)
  | .error e => (source, [], some e)

/-- Assignment `d[k] = v` on a Python `dict` modelled as an ordered
association list: overwrite in place, or append a new key. -/
def dictInsert (d : List (String × String)) (k v : String) :
    List (String × String) :=
  if d.any (fun p => p.1 == k) then
    d.map (fun p => if p.1 == k then (k, v) else p)
  else d ++ [(k, v)]

/-- One iteration of the result-processing loop of `find_stations`:
`if error:` records the error under the source's name (note: an empty error
string is falsy and is treated like success), otherwise extends
`all_stations`. -/
def processStep (acc : List Station × List (String × String))
    (r : DataSource × List Station × Option String) :
    List Station × List (String × String) :=
  if truthyStr r.2.2 then (acc.1, dictInsert acc.2 r.1.value (r.2.2.getD ""))
  else (acc.1 ++ r.2.1, acc.2)

/-- The result-processing loop of `find_stations`. -/
def processResults (results : List (DataSource × List Station × Option String)) :
    List Station × List (String × String) :=
  results.foldl processStep ([], [])

/-- Model of `{**self.errors, **errors_by_source}`: fan-out errors override
initialization errors key-wise. -/
def mergeErrorMaps (init fanout : List (String × String)) :
    List (String × String) :=
  fanout.foldl (fun d p => dictInsert d p.1 p.2) init

/-- Model of `PrecipAPI.find_stations`.  `initErrors` models `self.errors` (connector
initialization failures); `connectors` models `self.connectors` as an
ordered map from source to that connector's outcome on this request
(`asyncio.gather` preserves task order, so the merge happens in registry
order).  The leading guard uses Python truthiness (`not request.latitude and
not request.address`). -/
def find_stations (initErrors : List (String × String))
    (connectors : List (DataSource × Except String (List Station)))
    (request : StationSearchRequest) :
    Except PrecipError StationSearchResponse :=
  if ¬ truthyDec request.latitude ∧ ¬ truthyStr request.address then
    .error (.valueError "Either latitude/longitude or address must be provided")
  else
    let active : List (DataSource × Except String (List Station)) :=
      match request.sources with
      | some srcs =>
        if srcs ≠ [] then connectors.filter (fun c => srcs.contains c.1)
        else connectors
      | none => connectors
    let results := active.map (fun c => searchSource c.1 c.2)
    let processed := processResults results
    let unique := deduplicate_stations processed.1
    let unique := if request.max_results ≠ 0 then unique.take request.max_results
      else unique
    .ok { stations := unique
          total_count := unique.length
          search_location := (request.latitude, request.longitude, request.address)
          radius_miles := request.radius_miles
          errors_by_source := mergeErrorMaps initErrors processed.2 }

/-- Model of `PrecipAPI.get_station`.  `connectors` models `self.connectors`: each
active source paired with its connector's `get_station_info` behaviour as a
function of the vendor id. -/
def get_station
    (connectors : List (DataSource × (String → Except PrecipError Station)))
    (station_id : String) : Except PrecipError Station :=
  match decode_station_id station_id with
  | .error e => .error e
  | .ok (source_name, vendor_id) =>
    match DataSource.fromValue source_name with
    | none => .error (.stationNotFound ("Unknown data source: " ++ source_name))
    | some source =>
      match connectors.find? (fun c => c.1 == source) with
      | none =>
          .error (.stationNotFound ("Data source " ++ source_name ++
            " not available"))
      | some c => c.2 vendor_id

/-! ## USGS intermediate models (`app/integrations/usgs/models.py`) -/

/-- The `USGSStationSummary` pydantic model. -/
structure USGSStationSummary where
  site_no : String
  site_name : String
  site_type : String
  latitude : Dec
  longitude : Dec
  state_cd : Option String := none
  county_cd : Option String := none
  huc_cd : Option String := none
  elevation_ft : Option Dec := none
  available_parameters : List String := []
  distance_miles : Option Dec := none
deriving DecidableEq, Repr

/-- Shared shape of the USGS `PrecipitationMeasurement` /
`StreamflowMeasurement` pydantic models, after their `value` validator has
run (`value : float | None`). -/
structure USGSMeasurement where
  site_no : String
  site_name : String
  latitude : Dec
  longitude : Dec
  value : Option Dec
  unit : String
  timestamp : String
  qualifiers : List String := []
deriving DecidableEq, Repr

/-- The integer denoted by a list of ASCII digits. -/
def natOfDigits (cs : List Char) : Nat :=
  cs.foldl (fun n c => 10 * n + (c.toNat - 48)) 0

/-- The unsigned decimal forms accepted here: `digits`, `digits.digits`,
`digits.` and `.digits`. -/
def parseUnsignedDec (cs : List Char) : Option Dec :=
  match splitOnChar '.' cs with
  | [ip] =>
    if ip ≠ [] ∧ ip.all Char.isDigit then some ⟨natOfDigits ip, 0⟩ else none
  | [ip, fp] =>
    if (ip ≠ [] ∨ fp ≠ []) ∧ ip.all Char.isDigit ∧ fp.all Char.isDigit then
      some ⟨natOfDigits ip * 10 ^ fp.length + natOfDigits fp, fp.length⟩
    else none
  | _ => none

/-- Python's `float(s)` on the plain decimal literals that occur in USGS
payloads: `some` exact value, `none` where `float` raises `ValueError`. -/
def pyFloat? (s : String) : Option Dec :=
  match s.data with
  | '-' :: rest => (parseUnsignedDec rest).map Dec.neg
  | '+' :: rest => parseUnsignedDec rest
  | cs => parseUnsignedDec cs

/-- The pydantic `value` validator shared by the USGS measurement models:
`None` and `""` give `None`, an unparseable string gives `None`, otherwise
`float(v)`. -/
def parse_value (v : Option String) : Option Dec :=
  match v with
  | none => none
  | some s => if s = "" then none else pyFloat? s

/-! ## USGS RDB site parsing (`USGSClient._parse_rdb_sites_response`) -/

/-- Python `dict` built by successive assignment, queried with `.get`:
the last binding for a key wins. -/
def lookupLast (d : List (String × String)) (k : String) : Option String :=
  (d.reverse.find? (fun p => p.1 == k)).map Prod.snd

/-- The `site_data` dict for one row: `headers` zipped with the row's
fields (extra fields ignored, missing trailing fields absent), each field
`.strip()`ed. -/
def siteDataOf (headers fields : List String) : List (String × String) :=
  (headers.zip fields).map (fun p => (p.1, pyStrip p.2))

/-- Locate the header row: the first line that is neither a `#` comment nor
blank; returns it with the remaining lines. -/
def findHeader : List String → Option (String × List String)
  | [] => none
  | l :: rest =>
    if ¬ pyStartsWith l '#' ∧ pyStrip l ≠ "" then some (l, rest)
    else findHeader rest

/-- One iteration of the data-row loop of `_parse_rdb_sites_response`
(`geo` abstracts `geopy.distance.geodesic(...).miles`): `none` when the row
is skipped (blank/comment line, unparseable or zero coordinates, empty
`site_no`). -/
def parseRow (geo : Dec → Dec → Dec → Dec → Dec) (search_lat search_lon : Dec)
    (headers : List String) (line : String) : Option USGSStationSummary :=
  if pyStrip line = "" ∨ pyStartsWith line '#' then none
  else
    let fields := pySplit '\t' line
    let site_data := siteDataOf headers fields
    let site_no := (lookupLast site_data "site_no").getD ""
    let site_name := (lookupLast site_data "station_nm").getD ""
    let site_type := (lookupLast site_data "site_tp_cd").getD ""
    let lat_str := (lookupLast site_data "dec_lat_va").getD "0"
    let lon_str := (lookupLast site_data "dec_long_va").getD "0"
    match (if lat_str = "" then some ⟨0, 0⟩ else pyFloat? lat_str),
          (if lon_str = "" then some ⟨0, 0⟩ else pyFloat? lon_str) with
    | some lat, some lon =>
      if lat.isZero ∨ lon.isZero then none
      else
        let distance_miles : Option Dec :=
          if ¬ lat.isZero ∧ ¬ lon.isZero then
            some (geo search_lat search_lon lat lon)
          else none
        let elevation_ft : Option Dec :=
          match lookupLast site_data "alt_va" with
          | some es => if es ≠ "" then pyFloat? es else none
          | none => none
        if site_no ≠ "" then
          some { site_no := site_no
                 site_name := site_name
                 site_type := site_type
                 latitude := lat
                 longitude := lon
                 state_cd := lookupLast site_data "state_cd"
                 county_cd := lookupLast site_data "county_cd"
                 huc_cd := lookupLast site_data "huc_cd"
                 elevation_ft := elevation_ft
                 available_parameters := []
                 distance_miles := distance_miles }
        else none
    | _, _ => none

/-- The key `s.distance_miles or float("inf")` for summaries (`0.0` falsy). -/
def sortDistS (s : USGSStationSummary) : Option Dec :=
  match s.distance_miles with
  | some d => if d.isZero then none else some d
  | none => none

/-- The client-level sort `stations.sort(key=lambda s: s.distance_miles or
float("inf"))`: distance-or-infinity only, stable (no name tiebreak). -/
def summaryLE (s t : USGSStationSummary) : Prop :=
  odistLT (sortDistS s) (sortDistS t) = true ∨
    odistEqv (sortDistS s) (sortDistS t) = true

instance : DecidableRel summaryLE := fun s t =>
  inferInstanceAs (Decidable (odistLT (sortDistS s) (sortDistS t) = true ∨
    odistEqv (sortDistS s) (sortDistS t) = true))

/-- Model of `USGSClient._parse_rdb_sites_response`. -/
def parse_rdb_sites_response (geo : Dec → Dec → Dec → Dec → Dec)
    (rdb_text : String) (search_lat search_lon : Dec) :
    List USGSStationSummary :=
  let lines := pySplit '\n' (pyStrip rdb_text)
  match findHeader lines with
  | none => []
  | some (headerLine, rest) =>
    let headers := pySplit '\t' headerLine
    let stations := (rest.drop 1).filterMap
      (parseRow geo search_lat search_lon headers)
    List.insertionSort summaryLE stations

/-- Model of `USGSClient.get_sites_by_coordinates`, given the text body the site
service returned for the computed bounding-box query: parse, then
post-filter by true distance (`is not None and <= radius_miles`). -/
def get_sites_by_coordinates (geo : Dec → Dec → Dec → Dec → Dec)
    (response_text : String) (latitude longitude radius_miles : Dec) :
    List USGSStationSummary :=
  let stations := parse_rdb_sites_response geo response_text latitude longitude
  stations.filter (fun s =>
    match s.distance_miles with
    | some d => Dec.le d radius_miles
    | none => false)

/-! ## USGS connector (`USGSConnector`) -/

/-- Model of `USGSConnector._normalize_parameter_code`. -/
def normalize_parameter_code (raw_code : String) : Option ParameterType :=
  if raw_code = "00045" then some .precipitation
  else if raw_code = "00046" then some .precipitation
  else if raw_code = "00060" then some .streamflow
  else if raw_code = "00065" then some .gage_height
  else if raw_code = "00010" then some .temperature_water
  else if raw_code = "00020" then some .temperature_air
  else none

/-- Model of `USGSConnector._convert_usgs_station_to_station`. -/
def convert_usgs_station_to_station (u : USGSStationSummary) : Station :=
  { station_id := "usgs:" ++ u.site_no
    source := .usgs
    vendor_id := u.site_no
    name := u.site_name
    site_type := u.site_type
    latitude := u.latitude
    longitude := u.longitude
    elevation_ft := u.elevation_ft
    state := u.state_cd
    county := u.county_cd
    available_parameters := u.available_parameters.filterMap normalize_parameter_code
    distance_miles := u.distance_miles
    metadata := [("site_type", some u.site_type), ("state_cd", u.state_cd),
      ("county_cd", u.county_cd), ("huc_cd", u.huc_cd)] }

/-- Model of `USGSConnector.find_stations_by_coordinates`, given the site service's
response text; `availParams` abstracts the network probing of
`_get_available_parameters` per site number. -/
def usgs_find_stations_by_coordinates (geo : Dec → Dec → Dec → Dec → Dec)
    (availParams : String → List String) (response_text : String)
    (latitude longitude radius_miles : Dec) : List Station :=
  let usgs_stations :=
    get_sites_by_coordinates geo response_text latitude longitude radius_miles
  usgs_stations.map (fun u =>
    convert_usgs_station_to_station
      { u with available_parameters := availParams u.site_no })

/-- Model of `USGSConnector.get_station_info`, given the site service's response
text for the `sites={station_id}` query.  Note the parse is invoked with
the dummy reference point `(0, 0)`. -/
def usgs_get_station_info (geo : Dec → Dec → Dec → Dec → Dec)
    (availParams : String → List String) (response_text : String)
    (station_id : String) : Except PrecipError Station :=
  let usgs_stations := parse_rdb_sites_response geo response_text ⟨0, 0⟩ ⟨0, 0⟩
  match usgs_stations with
  | [] => .error (.stationNotFound ("USGS station " ++ station_id ++ " not found"))
  | u :: _ =>
    .ok (convert_usgs_station_to_station
      { u with available_parameters := availParams station_id })

/-- Model of `USGSConnector._convert_usgs_precipitation_to_measurement`: note
`float(usgs_measurement.value) if usgs_measurement.value else None` — the
Python-truthiness guard maps a value of exactly `0.0` to `None`. -/
def convert_usgs_precipitation_to_measurement (m : USGSMeasurement) : Measurement :=
  { station_id := "usgs:" ++ m.site_no
    source := .usgs
    vendor_id := m.site_no
    station_name := m.site_name
    parameter_type := .precipitation
    latitude := m.latitude
    longitude := m.longitude
    timestamp := m.timestamp
    value := match m.value with
      | some v => if v.isZero then none else some v
      | none => none
    unit := m.unit
    quality_flags := m.qualifiers
    metadata := [("usgs_qualifiers", m.qualifiers)] }

/-- Model of `USGSConnector._convert_usgs_streamflow_to_measurement` (same guard). -/
def convert_usgs_streamflow_to_measurement (m : USGSMeasurement) : Measurement :=
  { station_id := "usgs:" ++ m.site_no
    source := .usgs
    vendor_id := m.site_no
    station_name := m.site_name
    parameter_type := .streamflow
    latitude := m.latitude
    longitude := m.longitude
    timestamp := m.timestamp
    value := match m.value with
      | some v => if v.isZero then none else some v
      | none => none
    unit := m.unit
    quality_flags := m.qualifiers
    metadata := [("usgs_qualifiers", m.qualifiers)] }

/-! ## Concrete fixtures used by counterexamples and witnesses -/

/-- A station at the exact search point: `distance_miles == 0.0`. -/
def stZero : Station where
  station_id := "usgs:00000001"
  source := .usgs
  vendor_id := "00000001"
  name := "a"
  site_type := "ST"
  latitude := ⟨397392, 4⟩
  longitude := ⟨-1049903, 4⟩
  distance_miles := some ⟨0, 0⟩

/-- A station 5.0 miles from the search point. -/
def stFive : Station where
  station_id := "usgs:00000002"
  source := .usgs
  vendor_id := "00000002"
  name := "b"
  site_type := "ST"
  latitude := ⟨398, 1⟩
  longitude := ⟨-1049, 1⟩
  distance_miles := some ⟨5, 0⟩

/-- A station 3.1 miles out. -/
def stNear : Station where
  station_id := "usgs:00000003"
  source := .usgs
  vendor_id := "00000003"
  name := "alpha"
  site_type := "ST"
  latitude := ⟨3971, 2⟩
  longitude := ⟨-10498, 2⟩
  distance_miles := some ⟨31, 1⟩

/-- A station 11.4 miles out. -/
def stFar : Station where
  station_id := "usgs:00000004"
  source := .usgs
  vendor_id := "00000004"
  name := "beta"
  site_type := "ST"
  latitude := ⟨3985, 2⟩
  longitude := ⟨-10510, 2⟩
  distance_miles := some ⟨114, 1⟩

/-- A coordinate search request (Denver), default `max_results = 100`. -/
def reqDenver : StationSearchRequest where
  latitude := some ⟨397392, 4⟩
  longitude := some ⟨-1049903, 4⟩

/-- The same search capped at one result. -/
def reqCapOne : StationSearchRequest where
  latitude := some ⟨397392, 4⟩
  longitude := some ⟨-1049903, 4⟩
  max_results := 1

/-- A miniature USGS site-service RDB body: three comment lines, the header
row, the type-annotation row, one data row. -/
def rdbPotomac : String :=
  "#\n# comment\n#\nagency_cd\tsite_no\tstation_nm\tsite_tp_cd\tdec_lat_va\tdec_long_va\talt_va\tstate_cd\tcounty_cd\thuc_cd\n5s\t15s\t50s\t7s\t16s\t16s\t8s\t2s\t3s\t16s\nUSGS\t01646500\tPOTOMAC RIVER\tST\t38.95\t-77.12\t10.0\t24\t031\t02070008\n"

/-- A constant stand-in for the geodesic-distance function, 1.0 miles
everywhere. -/
def geoOne : Dec → Dec → Dec → Dec → Dec := fun _ _ _ _ => ⟨1, 0⟩

/-- The station `rdbPotomac`'s data row converts to under `geoOne` with no
available parameters. -/
def stPotomacConv : Station where
  station_id := "usgs:01646500"
  source := .usgs
  vendor_id := "01646500"
  name := "POTOMAC RIVER"
  site_type := "ST"
  latitude := ⟨3895, 2⟩
  longitude := ⟨-7712, 2⟩
  elevation_ft := some ⟨100, 1⟩
  state := some "24"
  county := some "031"
  distance_miles := some ⟨1, 0⟩
  metadata := [("site_type", some "ST"), ("state_cd", some "24"),
    ("county_cd", some "031"), ("huc_cd", some "02070008")]

/-- A connector registry for the dispatch witness: one USGS connector whose
`get_station_info` reports every station as missing. -/
def connsMissing : List (DataSource × (String → Except PrecipError Station)) :=
  [(.usgs, fun v => .error (.stationNotFound ("USGS station " ++ v ++ " not found")))]

end PrecipAPI

deriving instance DecidableEq for Except

namespace PrecipAPI

/-! ## Helper lemmas -/

/-- Splitting on the first `:` undoes prepending a colon-free prefix. -/
theorem splitOnFirst_colon_append (pre suf : List Char)
    (h : ∀ c ∈ pre, c ≠ ':') :
    splitOnFirst ':' (pre ++ ':' :: suf) = some (pre, suf) := by
  induction pre with
  | nil => simp [splitOnFirst]
  | cons c cs ih =>
    have hc : c ≠ ':' := h c (List.mem_cons_self c cs)
    have hcs : ∀ c ∈ cs, c ≠ ':' := fun x hx => h x (List.mem_cons_of_mem c hx)
    simp [splitOnFirst, hc, ih hcs]

/-- A string with no colon has no first-colon split. -/
theorem splitOnFirst_colon_none (cs : List Char) (h : ∀ c ∈ cs, c ≠ ':') :
    splitOnFirst ':' cs = none := by
  induction cs with
  | nil => rfl
  | cons c rest ih =>
    have hc : c ≠ ':' := h c (List.mem_cons_self c rest)
    have hrest : ∀ c ∈ rest, c ≠ ':' := fun x hx => h x (List.mem_cons_of_mem c hx)
    simp [splitOnFirst, hc, ih hrest]

/-- None of the registered source tags contains a colon. -/
theorem source_value_colon_free (src : DataSource) :
    ∀ c ∈ src.value.data, c ≠ ':' := by
  cases src <;> decide

/-! ## C6: station-id round trip -/

/-- C6.  For every registered source tag and every vendor id — colons in the
vendor id included — encoding the station id as `"{source}:{vendor_id}"` and
decoding it by splitting on the first `:` returns exactly the original pair. -/
theorem station_id_roundtrip (src : DataSource) (vendor_id : String) :
    decode_station_id (encodeStationId src.value vendor_id) =
      .ok (src.value, vendor_id) := by
  have hdata : (encodeStationId src.value vendor_id).data =
      src.value.data ++ ':' :: vendor_id.data := by
    show (src.value ++ ":" ++ vendor_id).data = _
    rw [String.data_append, String.data_append, List.append_assoc]
    rfl
  unfold decode_station_id
  rw [hdata, splitOnFirst_colon_append _ _ (source_value_colon_free src)]

/-! ## C7: unimplemented optional capabilities -/

/-- C7 counterexample.  The base-class defaults for the optional
capabilities raise `DataSourceError` — the repository defines no
`UnsupportedOperation` exception at all — so the errors are not of a kind
distinct from `DataSourceError` in the taxonomy. -/
theorem default_capability_datasource_error_cex :
    find_stations_by_address_default "usgs" =
      .error (.dataSourceError "usgs does not support address-based search") ∧
    get_precipitation_data_default "usgs" =
      .error (.dataSourceError "usgs does not support precipitation data retrieval") ∧
    get_streamflow_data_default "usgs" =
      .error (.dataSourceError "usgs does not support streamflow data retrieval") :=
  ⟨rfl, rfl, rfl⟩

/-- C7 (amended).  For every connector name, each unimplemented optional
capability fails with a `DataSourceError` whose message names the
connector. -/
theorem default_capability_error_names_connector (name : String) :
    find_stations_by_address_default name =
      .error (.dataSourceError (name ++ " does not support address-based search")) ∧
    get_precipitation_data_default name =
      .error (.dataSourceError (name ++ " does not support precipitation data retrieval")) ∧
    get_streamflow_data_default name =
      .error (.dataSourceError (name ++ " does not support streamflow data retrieval")) :=
  ⟨rfl, rfl, rfl⟩

/-! ## C10: zero measurement values -/

/-- C10.  A USGS measurement whose upstream value string parses to exactly
`0.0` is converted with `value = None` by both measurement converters (the
conversion guards on Python truthiness), and the converted output is
identical to that of an upstream no-data (`None`) value. -/
theorem zero_measurement_value_becomes_null (raw : String) (z : Dec)
    (m : USGSMeasurement) (hparse : parse_value (some raw) = some z)
    (hzero : z.isZero = true) :
    (convert_usgs_precipitation_to_measurement
        { m with value := parse_value (some raw) }).value = none ∧
    (convert_usgs_streamflow_to_measurement
        { m with value := parse_value (some raw) }).value = none ∧
    convert_usgs_precipitation_to_measurement
        { m with value := parse_value (some raw) } =
      convert_usgs_precipitation_to_measurement { m with value := none } := by
  rw [hparse]
  refine ⟨?_, ?_, ?_⟩ <;>
    simp [convert_usgs_precipitation_to_measurement,
      convert_usgs_streamflow_to_measurement, hzero]

/-- C10 witness: the upstream string `"0.00"` parses to the zero value
`⟨0, 2⟩`, and the conversion of a concrete measurement carrying it yields
`value = none`. -/
theorem zero_measurement_value_becomes_null_witness :
    parse_value (some "0.00") = some ⟨0, 2⟩ ∧ Dec.isZero ⟨0, 2⟩ = true ∧
    (convert_usgs_precipitation_to_measurement
        { site_no := "01646500", site_name := "POTOMAC RIVER",
          latitude := ⟨3895, 2⟩, longitude := ⟨-7712, 2⟩,
          value := parse_value (some "0.00"), unit := "in",
          timestamp := "2024-01-01T00:00:00Z", qualifiers := ["P"] }).value = none :=
  ⟨by decide, by decide,
    (zero_measurement_value_becomes_null "0.00" ⟨0, 2⟩
      { site_no := "01646500", site_name := "POTOMAC RIVER",
        latitude := ⟨3895, 2⟩, longitude := ⟨-7712, 2⟩,
        value := parse_value (some "0.00"), unit := "in",
        timestamp := "2024-01-01T00:00:00Z", qualifiers := ["P"] }
      (by decide) (by decide)).1⟩

/-! ## C5: deduplication -/

/-- The key-`k` survivors of the `seen`-set loop: none when `k` was already
seen, otherwise exactly the first input station carrying key `k`. -/
theorem dedupLoop_filter_key (stations : List Station)
    (seen : List (Int × Int × String)) (k : Int × Int × String) :
    (dedupLoop seen stations).filter (fun s => decide (stationKey s = k)) =
      if k ∈ seen then []
      else (stations.find? (fun s => decide (stationKey s = k))).toList := by
  induction stations generalizing seen with
  | nil => simp [dedupLoop]
  | cons s rest ih =>
    by_cases hseen : stationKey s ∈ seen
    · rw [dedupLoop, if_pos hseen, ih]
      by_cases hk : k ∈ seen
      · simp [hk]
      · have hne : ¬ stationKey s = k := fun h => hk (h ▸ hseen)
        simp [hk, List.find?_cons, hne]
    · rw [dedupLoop, if_neg hseen]
      by_cases hks : stationKey s = k
      · subst hks
        rw [List.filter_cons_of_pos (by simp), ih]
        simp [hseen, List.find?_cons]
      · rw [List.filter_cons_of_neg (by simp [hks]), ih]
        have hmem : k ∈ stationKey s :: seen ↔ k ∈ seen := by
          constructor
          · intro h
            rcases List.mem_cons.mp h with h1 | h1
            · exact absurd h1.symm hks
            · exact h1
          · exact fun h => List.mem_cons_of_mem _ h
        by_cases hk : k ∈ seen
        · simp [hk, hmem]
        · simp [hk, hmem, List.find?_cons, hks]

/-- A permutation of a list with at most one element is that list. -/
theorem perm_toList_eq {l : List Station} {o : Option Station}
    (h : l.Perm o.toList) : l = o.toList := by
  cases o with
  | none => simpa using h.eq_nil
  | some a => exact (List.perm_singleton).mp h

/-- C5.  For every merged fan-out result list and every dedup key, the
deduplicated (and sorted) station list produced inside `find_stations`
contains exactly one entry for that key — the first occurrence in merged
order — and drops every later duplicate; in particular two stations whose
coordinates round to the same 4-decimal pair and whose names agree after
lowercasing and stripping collapse to a single entry. -/
theorem deduplicate_stations_collapses_equal_keys (stations : List Station)
    (k : Int × Int × String) :
    (deduplicate_stations stations).filter (fun s => decide (stationKey s = k)) =
      (stations.find? (fun s => decide (stationKey s = k))).toList := by
  have hperm :
      ((deduplicate_stations stations).filter
          (fun s => decide (stationKey s = k))).Perm
        ((dedupLoop [] stations).filter (fun s => decide (stationKey s = k))) :=
    (List.perm_insertionSort stationLE (dedupLoop [] stations)).filter _
  have hbase := dedupLoop_filter_key stations [] k
  rw [if_neg (List.not_mem_nil k)] at hbase
  exact perm_toList_eq (hbase ▸ hperm)

/-! ## C1: total_count -/

/-- C1 counterexample.  Two key-distinct stations and `max_results = 1`:
the deduplicated, pre-cap list has 2 entries, but `total_count` is computed
only after the truncation and equals 1 — the length of the returned list —
rather than the claimed post-dedup, pre-cap count of 2. -/
theorem find_stations_total_count_post_cap_cex :
    (find_stations [] [(.usgs, .ok [stNear, stFar])] reqCapOne).map
        (fun r => (r.total_count, r.stations.length)) = .ok (1, 1) ∧
    (deduplicate_stations [stNear, stFar]).length = 2 := by decide

/-- C1 (amended).  `total_count` always equals the length of the returned
(post-dedup, post-truncation) station list. -/
theorem find_stations_total_count_eq_length
    (initErrors : List (String × String))
    (connectors : List (DataSource × Except String (List Station)))
    (request : StationSearchRequest) (resp : StationSearchResponse)
    (h : find_stations initErrors connectors request = .ok resp) :
    resp.total_count = resp.stations.length := by
  unfold find_stations at h
  split at h
  · exact absurd h (by simp)
  · simp only [Except.ok.injEq] at h
    subst h
    rfl

/-- C1 witness: the amended equality at a concrete request. -/
theorem find_stations_total_count_eq_length_witness :
    find_stations [] [(.usgs, .ok [stNear, stFar])] reqCapOne =
      .ok { stations := [stNear], total_count := 1
            search_location := (some ⟨397392, 4⟩, some ⟨-1049903, 4⟩, none)
            radius_miles := ⟨25, 0⟩, errors_by_source := [] } ∧
    (1 : Nat) = [stNear].length :=
  ⟨by decide,
    find_stations_total_count_eq_length [] [(.usgs, .ok [stNear, stFar])]
      reqCapOne
      { stations := [stNear], total_count := 1
        search_location := (some ⟨397392, 4⟩, some ⟨-1049903, 4⟩, none)
        radius_miles := ⟨25, 0⟩, errors_by_source := [] }
      (by decide)⟩

/-! ## C3: partial-failure contract -/

/-- Inserting an unbound key appends the pair. -/
theorem dictInsert_not_mem (d : List (String × String)) (k v : String)
    (h : ∀ p ∈ d, p.1 ≠ k) : dictInsert d k v = d ++ [(k, v)] := by
  unfold dictInsert
  rw [if_neg]
  simp only [List.any_eq_true, beq_iff_eq, not_exists]
  intro p hp
  exact h p hp.1 hp.2

/-- Merging an error map whose keys are fresh and pairwise distinct appends
it entry for entry. -/
theorem mergeErrorMaps_fresh (l d : List (String × String))
    (hfresh : ∀ p ∈ l, ∀ q ∈ d, q.1 ≠ p.1)
    (hnodup : (l.map Prod.fst).Nodup) :
    mergeErrorMaps d l = d ++ l := by
  induction l generalizing d with
  | nil => simp [mergeErrorMaps]
  | cons p rest ih =>
    have hstep : dictInsert d p.1 p.2 = d ++ [p] := by
      have := dictInsert_not_mem d p.1 p.2
        (fun q hq => hfresh p (List.mem_cons_self p rest) q hq)
      simpa using this
    have hn : p.1 ∉ rest.map Prod.fst ∧ (rest.map Prod.fst).Nodup := by
      rw [List.map_cons, List.nodup_cons] at hnodup
      exact hnodup
    have hrest : mergeErrorMaps (d ++ [p]) rest = (d ++ [p]) ++ rest := by
      refine ih (d ++ [p]) ?_ hn.2
      intro x hx q hq
      rcases List.mem_append.mp hq with hq1 | hq1
      · exact hfresh x (List.mem_cons_of_mem p hx) q hq1
      · have hqp : q = p := by simpa using hq1
        subst hqp
        intro hcontra
        exact hn.1 (hcontra ▸ List.mem_map_of_mem Prod.fst hx)
    calc mergeErrorMaps d (p :: rest)
        = mergeErrorMaps (dictInsert d p.1 p.2) rest := rfl
      _ = mergeErrorMaps (d ++ [p]) rest := by rw [hstep]
      _ = (d ++ [p]) ++ rest := hrest
      _ = d ++ (p :: rest) := by simp

/-- Processing a fan-out in which every connector failed with a non-empty
message accumulates no stations and one error entry per source. -/
theorem processResults_all_errors (failures : List (DataSource × String))
    (acc : List Station × List (String × String))
    (h : ∀ p ∈ failures, p.2 ≠ "") :
    (failures.map (fun p => searchSource p.1 (.error p.2))).foldl processStep acc =
      (acc.1, mergeErrorMaps acc.2 (failures.map (fun p => (p.1.value, p.2)))) := by
  induction failures generalizing acc with
  | nil => simp [mergeErrorMaps]
  | cons p rest ih =>
    have hp : p.2 ≠ "" := h p (List.mem_cons_self p rest)
    have hstep : processStep acc (searchSource p.1 (.error p.2)) =
        (acc.1, dictInsert acc.2 p.1.value p.2) := by
      simp [searchSource, processStep, truthyStr, hp]
    calc (searchSource p.1 (.error p.2) ::
            rest.map (fun p => searchSource p.1 (.error p.2))).foldl processStep acc
        = (rest.map (fun p => searchSource p.1 (.error p.2))).foldl processStep
            (processStep acc (searchSource p.1 (.error p.2))) := rfl
      _ = (rest.map (fun p => searchSource p.1 (.error p.2))).foldl processStep
            (acc.1, dictInsert acc.2 p.1.value p.2) := by rw [hstep]
      _ = (acc.1, mergeErrorMaps (dictInsert acc.2 p.1.value p.2)
            (rest.map (fun p => (p.1.value, p.2)))) :=
          ih _ (fun q hq => h q (List.mem_cons_of_mem p hq))
      _ = (acc.1, mergeErrorMaps acc.2
            ((p :: rest).map (fun p => (p.1.value, p.2)))) := rfl

/-- C3 counterexample.  A connector that raises an exception whose string
representation is empty (`str(e) == ""`, e.g. `raise RuntimeError()`)
produces no error-map entry at all — `if error:` treats the empty message as
success — so the error map has zero entries instead of exactly one keyed by
the failing source. -/
theorem find_stations_empty_error_message_cex :
    (find_stations [] [(.usgs, .ok [stNear]), (.noaa, .error "")] reqDenver).map
        (fun r => (r.stations, r.errors_by_source)) = .ok ([stNear], []) := by
  decide

/-- C3 (amended).  Provided each failing connector's exception has a
non-empty string representation: with two registered connectors of which
exactly one fails, `find_stations` still returns the healthy connector's
stations (deduplicated, sorted, capped) and an error map with exactly one
entry keyed by the failing source's name; and when every connector fails,
it returns a normal response with zero stations and one error-map entry per
failing source instead of raising. -/
theorem find_stations_partial_failure_contract :
    (∀ (src1 src2 : DataSource) (S : List Station) (m : String)
        (req : StationSearchRequest),
        m ≠ "" → truthyDec req.latitude = true → req.sources = none →
        find_stations [] [(src1, .ok S), (src2, .error m)] req =
          .ok { stations := if req.max_results ≠ 0 then
                    (deduplicate_stations S).take req.max_results
                  else deduplicate_stations S
                total_count := (if req.max_results ≠ 0 then
                    (deduplicate_stations S).take req.max_results
                  else deduplicate_stations S).length
                search_location := (req.latitude, req.longitude, req.address)
                radius_miles := req.radius_miles
                errors_by_source := [(src2.value, m)] }) ∧
    (∀ (failures : List (DataSource × String)) (req : StationSearchRequest),
        truthyDec req.latitude = true → req.sources = none →
        (∀ p ∈ failures, p.2 ≠ "") →
        (failures.map (fun p => p.1.value)).Nodup →
        find_stations []
            (failures.map
              (fun p => (p.1, (.error p.2 : Except String (List Station))))) req =
          .ok { stations := [], total_count := 0
                search_location := (req.latitude, req.longitude, req.address)
                radius_miles := req.radius_miles
                errors_by_source := failures.map (fun p => (p.1.value, p.2)) }) := by
  constructor
  · intro src1 src2 S m req hm hlat hsrc
    unfold find_stations
    rw [if_neg (by simp [hlat])]
    simp only [hsrc]
    simp [processResults, processStep, searchSource, truthyStr, hm,
      mergeErrorMaps, dictInsert]
  · intro failures req hlat hsrc hmsg hnodup
    unfold find_stations
    rw [if_neg (by simp [hlat])]
    simp only [hsrc]
    have hmap : (failures.map
          (fun p => (p.1, (.error p.2 : Except String (List Station))))).map
          (fun c => searchSource c.1 c.2) =
        failures.map (fun p => searchSource p.1 (.error p.2)) := by
      rw [List.map_map]
      rfl
    have hproc := processResults_all_errors failures ([], []) hmsg
    have hfresh : mergeErrorMaps [] (failures.map (fun p => (p.1.value, p.2))) =
        failures.map (fun p => (p.1.value, p.2)) := by
      have h0 := mergeErrorMaps_fresh (failures.map (fun p => (p.1.value, p.2))) []
        (by simp)
        (by rw [List.map_map]; exact hnodup)
      simpa using h0
    simp only [hmap, processResults]
    rw [hproc]
    simp [deduplicate_stations, dedupLoop, hfresh]

/-- C3 witness: one of two connectors failing with message `"boom"`, and
both connectors failing, at a concrete Denver request. -/
theorem find_stations_partial_failure_contract_witness :
    find_stations [] [(.usgs, .ok [stNear]), (.noaa, .error "boom")] reqDenver =
      .ok { stations := [stNear], total_count := 1
            search_location := (some ⟨397392, 4⟩, some ⟨-1049903, 4⟩, none)
            radius_miles := ⟨25, 0⟩
            errors_by_source := [("noaa", "boom")] } ∧
    find_stations [] [(.usgs, .error "down"), (.noaa, .error "down too")]
        reqDenver =
      .ok { stations := [], total_count := 0
            search_location := (some ⟨397392, 4⟩, some ⟨-1049903, 4⟩, none)
            radius_miles := ⟨25, 0⟩
            errors_by_source := [("usgs", "down"), ("noaa", "down too")] } := by
  constructor
  · exact (find_stations_partial_failure_contract.1 .usgs .noaa [stNear] "boom"
      reqDenver (by decide) (by decide) rfl).trans (by decide)
  · exact (find_stations_partial_failure_contract.2
      [(.usgs, "down"), (.noaa, "down too")] reqDenver (by decide) rfl
      (by intro p hp; fin_cases hp <;> decide) (by decide)).trans (by decide)

/-! ## C8: getStation decode and dispatch -/

/-- C8.  `get_station`: a station id without `:` fails with the builtin
`ValueError` (the code's realisation of the spec's InvalidRequest, mapped to
HTTP 400 by the router); a decoded source tag that is not a `DataSource`
value, or one without an active connector, fails with `StationNotFound`;
otherwise the call delegates to the connector, whose result — including a
raised `StationNotFound` — reaches the caller unwrapped. -/
theorem get_station_dispatch
    (connectors : List (DataSource × (String → Except PrecipError Station)))
    (station_id s v : String) :
    ((∀ c ∈ station_id.data, c ≠ ':') →
      get_station connectors station_id =
        .error (.valueError ("Invalid station ID format: " ++ station_id ++
          ". Expected 'source:id'"))) ∧
    (decode_station_id station_id = .ok (s, v) →
      (DataSource.fromValue s = none →
        get_station connectors station_id =
          .error (.stationNotFound ("Unknown data source: " ++ s))) ∧
      (∀ ds, DataSource.fromValue s = some ds →
        connectors.find? (fun c => c.1 == ds) = none →
        get_station connectors station_id =
          .error (.stationNotFound ("Data source " ++ s ++ " not available"))) ∧
      (∀ ds conn, DataSource.fromValue s = some ds →
        connectors.find? (fun c => c.1 == ds) = some conn →
        get_station connectors station_id = conn.2 v)) := by
  constructor
  · intro hnc
    unfold get_station decode_station_id
    rw [splitOnFirst_colon_none _ hnc]
  · intro hdec
    refine ⟨?_, ?_, ?_⟩
    · intro hfrom
      unfold get_station
      simp only [hdec, hfrom]
    · intro ds hfrom hfind
      unfold get_station
      simp only [hdec, hfrom, hfind]
    · intro ds conn hfrom hfind
      unfold get_station
      simp only [hdec, hfrom, hfind]

/-- C8 witness: a colon-free id, an unknown source tag, and delegation to a
USGS connector raising `StationNotFound`. -/
theorem get_station_dispatch_witness :
    get_station connsMissing "nocolon" =
      .error (.valueError "Invalid station ID format: nocolon. Expected 'source:id'") ∧
    get_station connsMissing "demo:XYZ123" =
      .error (.stationNotFound "Unknown data source: demo") ∧
    get_station connsMissing "usgs:XYZ123" =
      .error (.stationNotFound "USGS station XYZ123 not found") := by
  refine ⟨?_, ?_, ?_⟩
  · exact ((get_station_dispatch connsMissing "nocolon" "" "").1
      (by decide)).trans (by decide)
  · exact (((get_station_dispatch connsMissing "demo:XYZ123" "demo" "XYZ123").2
      (by decide)).1 rfl).trans (by decide)
  · exact (((get_station_dispatch connsMissing "usgs:XYZ123" "usgs" "XYZ123").2
      (by decide)).2.2 .usgs
      (.usgs, fun w => .error (.stationNotFound ("USGS station " ++ w ++ " not found")))
      rfl rfl).trans (by decide)

/-! ## C9: radius post-filter -/

/-- Every station record produced by the RDB row parser carries the
geodesic distance from the caller-supplied reference point. -/
theorem parseRow_distance (geo : Dec → Dec → Dec → Dec → Dec)
    (la lo : Dec) (headers : List String) (line : String)
    (u : USGSStationSummary)
    (h : parseRow geo la lo headers line = some u) :
    u.distance_miles = some (geo la lo u.latitude u.longitude) := by
  unfold parseRow at h
  split at h
  · exact absurd h (by simp)
  · dsimp only at h
    split at h
    · rename_i lat lon heq1 heq2
      split at h
      · exact absurd h (by simp)
      · rename_i hz
        split at h
        · simp only [Option.some.injEq] at h
          subst h
          dsimp only
          rw [if_pos ⟨fun hl => hz (Or.inl hl), fun hl => hz (Or.inr hl)⟩]
        · exact absurd h (by simp)
    · exact absurd h (by simp)

/-- Every station in the parsed RDB list carries the geodesic distance from
the reference point. -/
theorem parse_rdb_sites_response_distance (geo : Dec → Dec → Dec → Dec → Dec)
    (text : String) (la lo : Dec) :
    ∀ u ∈ parse_rdb_sites_response geo text la lo,
      u.distance_miles = some (geo la lo u.latitude u.longitude) := by
  intro u hu
  unfold parse_rdb_sites_response at hu
  dsimp only at hu
  split at hu
  · exact absurd hu (List.not_mem_nil u)
  · rw [(List.perm_insertionSort summaryLE _).mem_iff] at hu
    rcases List.mem_filterMap.mp hu with ⟨line, _, hparse⟩
    exact parseRow_distance geo la lo _ line u hparse

/-- C9.  Every station returned by the USGS connector's coordinate search
satisfies `distance <= radius`: the rectangular bounding box only shapes the
upstream query, and each candidate is post-filtered by its true geodesic
distance from the search point, which the returned `distance_miles` equals. -/
theorem usgs_find_by_coordinates_within_radius
    (geo : Dec → Dec → Dec → Dec → Dec) (availParams : String → List String)
    (text : String) (lat lon radius : Dec) :
    ∀ st ∈ usgs_find_stations_by_coordinates geo availParams text lat lon radius,
      st.distance_miles = some (geo lat lon st.latitude st.longitude) ∧
      Dec.le (geo lat lon st.latitude st.longitude) radius = true := by
  intro st hst
  unfold usgs_find_stations_by_coordinates at hst
  rcases List.mem_map.mp hst with ⟨u, hu, rfl⟩
  unfold get_sites_by_coordinates at hu
  have hmem := (List.mem_filter.mp hu).1
  have hpred := (List.mem_filter.mp hu).2
  have hdist := parse_rdb_sites_response_distance geo text lat lon u hmem
  constructor
  · show u.distance_miles = some (geo lat lon u.latitude u.longitude)
    exact hdist
  · rw [hdist] at hpred
    exact hpred

/-- C9 witness: the Potomac fixture under the constant 1-mile distance
function is returned and satisfies the radius bound. -/
theorem usgs_find_by_coordinates_within_radius_witness :
    stPotomacConv ∈ usgs_find_stations_by_coordinates geoOne (fun _ => [])
        rdbPotomac ⟨0, 0⟩ ⟨0, 0⟩ ⟨25, 0⟩ ∧
    stPotomacConv.distance_miles =
      some (geoOne ⟨0, 0⟩ ⟨0, 0⟩ stPotomacConv.latitude stPotomacConv.longitude) ∧
    Dec.le (geoOne ⟨0, 0⟩ ⟨0, 0⟩ stPotomacConv.latitude stPotomacConv.longitude)
      ⟨25, 0⟩ = true :=
  ⟨by decide,
    usgs_find_by_coordinates_within_radius geoOne (fun _ => []) rdbPotomac
      ⟨0, 0⟩ ⟨0, 0⟩ ⟨25, 0⟩ stPotomacConv (by decide)⟩

/-! ## C2: distance on direct by-ID lookup -/

/-- C2.  `USGSConnector.get_station_info` parses the RDB body with the
dummy reference point `(0, 0)`, and the parser computes a distance for
every surviving row (their coordinates are never zero), so the station
returned by a direct by-ID lookup carries
`distance_miles = geodesic((0, 0), station)` — populated, not null. -/
theorem usgs_get_station_info_distance_bug
    (geo : Dec → Dec → Dec → Dec → Dec) :
    (usgs_get_station_info geo (fun _ => []) rdbPotomac "01646500").map
        (fun st => st.distance_miles) =
      .ok (some (geo ⟨0, 0⟩ ⟨0, 0⟩ ⟨3895, 2⟩ ⟨-7712, 2⟩)) := rfl

/-! ## C4: result ordering -/

/-- C4.  A station with `distance_miles == 0.0` is sorted as if its
distance were infinite (`s.distance_miles or float("inf")` is falsy at
`0.0`), so the returned order can strictly decrease: here the 5.0-mile
station precedes the 0.0-mile one. -/
theorem deduplicate_stations_zero_distance_sorted_last :
    (deduplicate_stations [stZero, stFive]).map Station.distance_miles =
      [some ⟨5, 0⟩, some ⟨0, 0⟩] ∧
    Dec.le ⟨5, 0⟩ ⟨0, 0⟩ = false := by decide

end PrecipAPI
